import Mathlib

/-!
Verification of MusicNFOGenerator (nfo.py) against its specification.

The Python program is embedded shallowly:

* `search_discogs` embeds the function of the same name (nfo.py lines 47-72).
  The HTTP layer is modelled by `HttpOutcome`: either a network error (any
  exception raised by `requests.get`), or a response with a status code and
  an optional parsed JSON body (`none` models a body that `response.json()`
  fails to parse, or whose shape makes the subsequent accesses raise).
  `requests.raise_for_status` raises exactly for status codes in [400, 600);
  every exception is caught by the bare `except Exception` and yields
  "Unknown".  The result is paired with the number of HTTP requests issued,
  so that "no network call" is expressible.

* `format_duration` embeds nfo.py lines 40-44.  Python `//` and `%` on ints
  are floor division and nonnegative remainder (for a positive divisor),
  i.e. `Int.ediv` / `Int.emod`; `f"{m:02}"` is zero padding to width 2.

* `generate_nfo` embeds nfo.py lines 75-137 up to the point where the `info`
  mapping is built (the template substitution and file write consume `info`
  unchanged).  The MediaInfo subprocess is modelled by the `mediaInfo` field
  of `AudioFile`: `none` when `get_media_info` returns no data, otherwise
  the first track record of the JSON report, with each consumed key either
  absent (`none`) or a string.  The parsed value of
  `float(track.get("Duration", "0"))` is modelled as `durationVal : Option Rat`
  (`none` models a `ValueError`, which contributes nothing to the total).
  Python float arithmetic on these values is modelled by exact rational
  arithmetic; this is exact for every size below 2^53 bytes, and no claim
  depends on the inexact range.

* `process_albums` embeds nfo.py lines 142-160, recording which album names
  get an .nfo file generated and which are moved to the output directory.
-/

namespace MusicNFO

/-- One consumed track record from the MediaInfo JSON report
(`media_info["media"]["track"][0]`): each key is either absent or holds a
string; `durationVal` is the parsed float value of the Duration string. -/
structure TrackInfo where
  performer : Option String
  album : Option String
  genre : Option String
  originalSourceForm : Option String
  format : Option String
  recorded_Date : Option String
  durationVal : Option Rat
  deriving DecidableEq

/-- An audio file found by the extension globs: its path string `str(f)`
(which includes the folder part), its byte size, and the MediaInfo record
(`none` when `get_media_info` returned no data). -/
structure AudioFile where
  path : String
  size : Nat
  mediaInfo : Option TrackInfo
  deriving DecidableEq

/-- One entry of the Discogs search `results` list; `uri` is `none` when the
entry has no "uri" key. -/
structure SearchResultEntry where
  uri : Option String
  deriving DecidableEq

/-- The parsed JSON body of a Discogs search response: its `results` list
(a missing "results" key is modelled as the empty list, which the code
treats identically since both are falsy). -/
structure SearchBody where
  results : List SearchResultEntry
  deriving DecidableEq

/-- Outcome of the single `requests.get` call: a raised exception
(network error) or a response with an HTTP status and an optional parsed
JSON body (`none` when `response.json()` raises). -/
inductive HttpOutcome where
  | networkError
  | response (status : Nat) (body : Option SearchBody)
  deriving DecidableEq

/-- Boolean test that the first list is an initial segment of the second. -/
def listPrefixB : List Char → List Char → Bool
  | [], _ => true
  | _ :: _, [] => false
  | a :: as, b :: bs => a = b && listPrefixB as bs

/-- Python `s.startswith(pat)`. -/
def pyStartsWith (s pat : String) : Bool :=
  listPrefixB pat.data s.data

/-- nfo.py 47-72, `search_discogs`.  The token is `os.getenv` output
(`none` when unset); `if not DISCOGS_TOKEN` is true for `none` and for the
empty string.  Returns the resulting link string together with the number
of HTTP requests performed. -/
def search_discogs (token : Option String) (outcome : HttpOutcome) :
    String × Nat :=
  match token with
  | none => ("Unknown", 0)
  | some t =>
    if t = "" then ("Unknown", 0)
    else
      match outcome with
      | .networkError => ("Unknown", 1)
      | .response status body =>
        if 400 ≤ status ∧ status < 600 then ("Unknown", 1)
        else
          match body with
          | none => ("Unknown", 1)
          | some data =>
            match data.results with
            | [] => ("Unknown", 1)
            | r :: _ =>
              let uri := r.uri.getD "Unknown"
              if pyStartsWith uri "/" then
                ("https://www.discogs.com" ++ uri, 1)
              else (uri, 1)

/-- Python `f"{n:02}"` for a nonnegative integer: decimal digits, zero
padded on the left to width 2. -/
def pad2 (n : Nat) : String :=
  if n < 10 then "0" ++ Nat.repr n else Nat.repr n

/-- Python `str` of an int. -/
def pyStrInt (n : Int) : String :=
  if n < 0 then "-" ++ Nat.repr (-n).toNat else Nat.repr n.toNat

/-- nfo.py 40-44, `format_duration`.  Python `//`/`%` on ints with positive
divisor are `Int.ediv`/`Int.emod`; the minutes and seconds passed to the
`02` format are always in [0, 60), hence nonnegative and `toNat` is exact. -/
def format_duration (seconds : Int) : String :=
  let hours := seconds.ediv 3600
  let minutes := (seconds.emod 3600).ediv 60
  let secs := seconds.emod 60
  pyStrInt hours ++ ":" ++ pad2 minutes.toNat ++ ":" ++ pad2 secs.toNat

/-- Python `int()` on a rational value: truncation toward zero, which for
a fraction in lowest terms is t-division of numerator by denominator. -/
def pyInt (q : Rat) : Int :=
  q.num.tdiv (q.den : Int)

/-- Rounding of the fraction `num / den` (with `den > 0`) to the nearest
integer, ties to even — the rounding used by Python `round`. -/
def natRoundHalfEven (num den : Nat) : Nat :=
  let q := num / den
  let r := num % den
  if 2 * r < den then q
  else if den < 2 * r then q + 1
  else if q % 2 = 0 then q else q + 1

/-- nfo.py 131: `f"{round(total_size / (1024 ** 2), 2)} MB"`.  Rounding to
two decimals is rounding `total_size * 100 / 1048576` half-to-even to an
integer `k`; the float computation is modelled exactly (exact for sizes
below 2^53 bytes, where `total_size / 1048576` is an exact float and
Python `round(x, 2)` performs correctly rounded half-to-even decimal
rounding); the repr of the rounded value prints the minimal number of
decimal digits of `k / 100`, at least one. -/
def formatSizeMB (totalSize : Nat) : String :=
  let k := natRoundHalfEven (totalSize * 100) 1048576
  let whole := k / 100
  let frac := k % 100
  (if frac = 0 then Nat.repr whole ++ ".0"
   else if frac % 10 = 0 then Nat.repr whole ++ "." ++ Nat.repr (frac / 10)
   else Nat.repr whole ++ "." ++ pad2 frac) ++ " MB"

/-- Boolean test that `pat` occurs contiguously inside `l`. -/
def listInfixB (pat : List Char) : List Char → Bool
  | [] => pat.isEmpty
  | c :: tl => listPrefixB pat (c :: tl) || listInfixB pat tl

/-- Python `pat in s` for strings: `pat` occurs as a contiguous substring
of `s`. -/
def strContains (s pat : String) : Bool :=
  listInfixB pat.data s.data

/-- The file-extension test the specification speaks about: the path ends
with the five characters ".flac". -/
def hasFlacExtension (p : String) : Bool :=
  listPrefixB ".flac".data.reverse p.data.reverse

/-- The loop state of nfo.py 88-114: the five first-wins metadata variables
(initially `None`) and the running duration total. -/
structure AggState where
  artist : Option String
  album : Option String
  genre : Option String
  source : Option String
  year : Option String
  totalDuration : Rat
  deriving DecidableEq

/-- nfo.py 99-108: `if var is None: var = general_info.get(key, "Unknown")`.
Once the variable holds any value — including "Unknown" filled in for an
absent key — later files can no longer change it. -/
def updField (cur : Option String) (v : Option String) : Option String :=
  match cur with
  | some s => some s
  | none => some (v.getD "Unknown")

/-- nfo.py 105-106: the source field falls back from OriginalSourceForm to
Format to "Unknown". -/
def updSource (cur : Option String) (osf fmt : Option String) : Option String :=
  match cur with
  | some s => some s
  | none => some (osf.getD (fmt.getD "Unknown"))

/-- One iteration of the loop of nfo.py 92-114 over `audio_files`: a file
whose `get_media_info` returned no data is skipped entirely (`continue`);
otherwise every still-`None` variable is set from this file's record and
the file's parsed duration (0 when absent or unparsable) is accumulated. -/
def stepFile (st : AggState) (f : AudioFile) : AggState :=
  match f.mediaInfo with
  | none => st
  | some gi =>
    ⟨updField st.artist gi.performer,
     updField st.album gi.album,
     updField st.genre gi.genre,
     updSource st.source gi.originalSourceForm gi.format,
     updField st.year gi.recorded_Date,
     st.totalDuration + gi.durationVal.getD 0⟩

/-- The initial loop state (all variables `None`, total duration 0). -/
def initAgg : AggState := ⟨none, none, none, none, none, 0⟩

/-- The whole metadata loop of nfo.py 92-114. -/
def aggregate (files : List AudioFile) : AggState :=
  files.foldl stepFile initAgg

/-- Python `x or "Unknown"` on an optional string variable: `None` and the
empty string are falsy and replaced by the default (nfo.py 121-125). -/
def pyOr (v : Option String) (d : String) : String :=
  match v with
  | none => d
  | some s => if s = "" then d else s

/-- The Aggregated Album Info mapping built at nfo.py 119-132, with the
field names of the template placeholders (`Artist(s)` is `Artists` here,
since a Lean name cannot contain parentheses). -/
structure Info where
  Release : String
  Artists : String
  Album : String
  Genre : String
  Source : String
  Annee : String
  Ripper : String
  Encode : String
  Qualite : String
  Link : String
  Duree : String
  Taille : String
  deriving DecidableEq

/-- nfo.py 116-117: a falsy `discogs_link` argument (`None` or the empty
string) is replaced by the `search_discogs` result; a truthy one is used
as given. -/
def effectiveLink (dl : Option String) (searched : String) : String :=
  match dl with
  | none => searched
  | some l => if l = "" then searched else l

/-- nfo.py 75-137, `generate_nfo`, up to the construction of the `info`
mapping (the template substitution and the .nfo write consume it
unchanged, so `none` means no .nfo file is written).  `audioFiles` is the
glob result of lines 80-82 in its processing order; `discogs_link` is the
optional parameter (line 116 replaces a falsy value — `None` or the empty
string — by the `search_discogs` result); `lookup` maps the artist/album
query actually sent to the HTTP outcome of that request. -/
def generate_nfo (folderName : String) (audioFiles : List AudioFile)
    (discogs_link : Option String) (token : Option String)
    (lookup : Option String → Option String → HttpOutcome) : Option Info :=
  if audioFiles.isEmpty then none
  else
    let total_size := (audioFiles.map AudioFile.size).sum
    let st := aggregate audioFiles
    let searched := (search_discogs token (lookup st.artist st.album)).1
    let link := effectiveLink discogs_link searched
    some
      ⟨folderName,
       pyOr st.artist "Unknown",
       pyOr st.album "Unknown",
       pyOr st.genre "Unknown",
       pyOr st.source "Unknown",
       pyOr st.year "Unknown",
       "dBpoweramp",
       "dBpoweramp",
       if audioFiles.any (fun f => strContains f.path ".flac") then "FLAC"
       else "WAV",
       link,
       format_duration (pyInt st.totalDuration),
       formatSizeMB total_size⟩

/-- One entry of `INPUT_DIR.iterdir()`: its name, whether it is a
directory, and (when a directory) the audio files its globs find. -/
structure DirEntry where
  name : String
  isDirectory : Bool
  audioFiles : List AudioFile
  deriving DecidableEq

/-- The observable outcome of a `process_albums` run: the names of album
folders for which an .nfo file was generated, and the names of folders
moved into the output directory. -/
structure ProcessOutcome where
  nfosWritten : List String
  moved : List String
  deriving DecidableEq

/-- nfo.py 142-160, `process_albums` (given that the input directory
exists): every non-directory entry is skipped; for a directory,
`generate_nfo` runs first (it writes an .nfo iff it found audio files) and
`shutil.move` then moves the folder unconditionally. -/
def process_albums (token : Option String)
    (lookup : Option String → Option String → HttpOutcome) :
    List DirEntry → ProcessOutcome
  | [] => ⟨[], []⟩
  | e :: rest =>
    let r := process_albums token lookup rest
    if e.isDirectory then
      match generate_nfo e.name e.audioFiles none token lookup with
      | some _ => ⟨e.name :: r.nfosWritten, e.name :: r.moved⟩
      | none => ⟨r.nfosWritten, e.name :: r.moved⟩
    else r

/-- The duration format stated by the specification, written exactly from
its words: output is H:MM:SS where H = S // 3600 with no padding,
MM = (S % 3600) // 60 zero-padded to two digits, SS = S % 60 zero-padded
to two digits. -/
def spec_format_duration (S : Nat) : String :=
  Nat.repr (S / 3600) ++ ":" ++ pad2 (S % 3600 / 60) ++ ":" ++ pad2 (S % 60)

/- Helper lemmas -/

theorem pyStrInt_ofNat (n : Nat) : pyStrInt (Int.ofNat n) = Nat.repr n := by
  unfold pyStrInt
  rw [if_neg (show ¬Int.ofNat n < 0 from Int.not_lt.mpr (Int.ofNat_nonneg n))]
  rfl

theorem stepFile_of_none {f : AudioFile} (st : AggState)
    (h : f.mediaInfo = none) : stepFile st f = st := by
  unfold stepFile
  rw [h]

theorem foldl_stepFile_skip {pre : List AudioFile}
    (h : ∀ g ∈ pre, g.mediaInfo = none) (st : AggState) :
    pre.foldl stepFile st = st := by
  induction pre generalizing st with
  | nil => rfl
  | cons g rest ih =>
    rw [List.foldl_cons, stepFile_of_none st (h g (by simp)),
      ih fun x hx => h x (by simp [hx])]

theorem stepFile_keeps {st : AggState} (f : AudioFile)
    {a b c d e : String}
    (h1 : st.artist = some a) (h2 : st.album = some b)
    (h3 : st.genre = some c) (h4 : st.source = some d)
    (h5 : st.year = some e) :
    (stepFile st f).artist = some a ∧ (stepFile st f).album = some b ∧
    (stepFile st f).genre = some c ∧ (stepFile st f).source = some d ∧
    (stepFile st f).year = some e := by
  unfold stepFile
  cases f.mediaInfo with
  | none => exact ⟨h1, h2, h3, h4, h5⟩
  | some gi =>
    rw [h1, h2, h3, h4, h5]
    exact ⟨rfl, rfl, rfl, rfl, rfl⟩

theorem foldl_stepFile_keeps (post : List AudioFile) :
    ∀ (st : AggState) (a b c d e : String), st.artist = some a →
      st.album = some b → st.genre = some c → st.source = some d →
      st.year = some e →
      (post.foldl stepFile st).artist = some a ∧
      (post.foldl stepFile st).album = some b ∧
      (post.foldl stepFile st).genre = some c ∧
      (post.foldl stepFile st).source = some d ∧
      (post.foldl stepFile st).year = some e := by
  induction post with
  | nil => exact fun st a b c d e h1 h2 h3 h4 h5 => ⟨h1, h2, h3, h4, h5⟩
  | cons f rest ih =>
    intro st a b c d e h1 h2 h3 h4 h5
    rw [List.foldl_cons]
    obtain ⟨k1, k2, k3, k4, k5⟩ := stepFile_keeps f h1 h2 h3 h4 h5
    exact ih _ a b c d e k1 k2 k3 k4 k5

theorem generate_nfo_some_eq {n : String} {fs : List AudioFile}
    {dl token : Option String}
    {lookup : Option String → Option String → HttpOutcome} {info : Info}
    (h : generate_nfo n fs dl token lookup = some info) :
    info =
      ⟨n,
       pyOr (aggregate fs).artist "Unknown",
       pyOr (aggregate fs).album "Unknown",
       pyOr (aggregate fs).genre "Unknown",
       pyOr (aggregate fs).source "Unknown",
       pyOr (aggregate fs).year "Unknown",
       "dBpoweramp",
       "dBpoweramp",
       if fs.any (fun f => strContains f.path ".flac") then "FLAC" else "WAV",
       effectiveLink dl
         (search_discogs token
           (lookup (aggregate fs).artist (aggregate fs).album)).1,
       format_duration (pyInt (aggregate fs).totalDuration),
       formatSizeMB ((fs.map AudioFile.size).sum)⟩ := by
  unfold generate_nfo at h
  split at h
  · exact absurd h (by simp)
  · exact (Option.some.inj h).symm

theorem pyOr_unknown_ne_empty (v : Option String) : pyOr v "Unknown" ≠ "" := by
  cases v with
  | none => decide
  | some s =>
    show (if s = "" then "Unknown" else s) ≠ ""
    split
    · decide
    · assumption

theorem string_eq_empty_of_data {a : String} (h : a.data = []) : a = "" := by
  cases a
  simp only [String.data] at h
  rw [h]

theorem string_append_ne_empty_right (a b : String) (h : b ≠ "") :
    a ++ b ≠ "" := by
  intro hc
  apply h
  have hd := congrArg String.data hc
  rw [String.data_append] at hd
  rcases List.append_eq_nil.mp hd with ⟨-, h2⟩
  exact string_eq_empty_of_data h2

theorem string_append_ne_empty_left (a b : String) (h : a ≠ "") :
    a ++ b ≠ "" := by
  intro hc
  apply h
  have hd := congrArg String.data hc
  rw [String.data_append] at hd
  rcases List.append_eq_nil.mp hd with ⟨h2, -⟩
  exact string_eq_empty_of_data h2

theorem format_duration_ne_empty (s : Int) : format_duration s ≠ "" := by
  unfold format_duration
  apply string_append_ne_empty_left
  apply string_append_ne_empty_right
  decide

theorem formatSizeMB_ne_empty (b : Nat) : formatSizeMB b ≠ "" := by
  unfold formatSizeMB
  apply string_append_ne_empty_right
  decide

theorem ite_ne_empty {c : Prop} [Decidable c] {a b : String}
    (ha : a ≠ "") (hb : b ≠ "") : (if c then a else b) ≠ "" := by
  split
  · exact ha
  · exact hb

theorem generate_nfo_of_empty (n : String) {fs : List AudioFile}
    (dl token : Option String)
    (lookup : Option String → Option String → HttpOutcome)
    (h : fs.isEmpty = true) :
    generate_nfo n fs dl token lookup = none := by
  unfold generate_nfo
  rw [if_pos h]

theorem generate_nfo_of_nonempty (n : String) {fs : List AudioFile}
    (dl token : Option String)
    (lookup : Option String → Option String → HttpOutcome)
    (h : fs.isEmpty = false) :
    ∃ i, generate_nfo n fs dl token lookup = some i := by
  unfold generate_nfo
  rw [if_neg (by simp [h])]
  exact ⟨_, rfl⟩

/- Claim theorems -/

/-- C6: when no API credential is configured — DISCOGS_TOKEN unset, or the
equally falsy empty string — search_discogs returns exactly "Unknown" and
performs zero HTTP requests, whatever the network would have answered. -/
theorem C6_no_token_no_request :
    ∀ outcome : HttpOutcome,
      search_discogs none outcome = ("Unknown", 0) ∧
      search_discogs (some "") outcome = ("Unknown", 0) :=
  fun _ => ⟨rfl, rfl⟩

/-- C7: for every nonnegative total of seconds S, format_duration yields
H:MM:SS with H = S // 3600 unbounded and unpadded, MM = (S % 3600) // 60
and SS = S % 60 both zero-padded to two digits; 3725 formats as 1:02:05. -/
theorem C7_format_duration_spec :
    (∀ S : Nat, format_duration (Int.ofNat S) = spec_format_duration S) ∧
    format_duration 3725 = "1:02:05" := by
  constructor
  · intro S
    show pyStrInt (Int.ofNat (S / 3600)) ++ ":" ++ pad2 (S % 3600 / 60) ++
        ":" ++ pad2 (S % 60) = _
    rw [pyStrInt_ofNat]
    rfl
  · decide

/-- C9: on a successful response whose first result carries a uri, a uri
starting with "/" is returned prefixed with the Discogs web origin, and
any other uri is returned unchanged. -/
theorem C9_uri_resolution (t : String) (status : Nat)
    (r : SearchResultEntry) (rs : List SearchResultEntry) (u : String)
    (ht : t ≠ "") (hs : ¬(400 ≤ status ∧ status < 600))
    (hu : r.uri = some u) :
    (pyStartsWith u "/" = true →
      (search_discogs (some t) (.response status (some ⟨r :: rs⟩))).1
        = "https://www.discogs.com" ++ u) ∧
    (pyStartsWith u "/" = false →
      (search_discogs (some t) (.response status (some ⟨r :: rs⟩))).1
        = u) := by
  have hred : search_discogs (some t) (.response status (some ⟨r :: rs⟩))
      = if t = "" then ("Unknown", 0)
        else if 400 ≤ status ∧ status < 600 then ("Unknown", 1)
        else
          let uri := r.uri.getD "Unknown"
          if pyStartsWith uri "/" then ("https://www.discogs.com" ++ uri, 1)
          else (uri, 1) := rfl
  rw [hred, if_neg ht, if_neg hs, hu]
  constructor
  · intro hp
    simp only [Option.getD_some, hp, if_true]
  · intro hp
    simp only [Option.getD_some, hp, Bool.false_eq_true, if_false]

/-- Witness for C9 at the specification's own example input. -/
theorem C9_witness :
    ("tok" : String) ≠ "" ∧ ¬(400 ≤ 200 ∧ 200 < 600) ∧
    (search_discogs (some "tok")
        (.response 200 (some ⟨[⟨some "/release/12345"⟩]⟩))).1
      = "https://www.discogs.com/release/12345" :=
  ⟨by decide, by decide,
   (C9_uri_resolution "tok" 200 ⟨some "/release/12345"⟩ [] "/release/12345"
     (by decide) (by decide) rfl).1 rfl⟩

/-- C10: whenever generate_nfo builds an info mapping, its Ripper and
Encode fields are the constant "dBpoweramp". -/
theorem C10_ripper_encode_constant (n : String) (fs : List AudioFile)
    (dl token : Option String)
    (lookup : Option String → Option String → HttpOutcome) (info : Info)
    (h : generate_nfo n fs dl token lookup = some info) :
    info.Ripper = "dBpoweramp" ∧ info.Encode = "dBpoweramp" := by
  rw [generate_nfo_some_eq h]
  exact ⟨rfl, rfl⟩

/-- Witness for C10 on a concrete album. -/
theorem C10_witness :
    generate_nfo "Album1" [⟨"input/Album1/a.flac", 1048576, none⟩] none none
        (fun _ _ => .networkError)
      = some ⟨"Album1", "Unknown", "Unknown", "Unknown", "Unknown", "Unknown",
              "dBpoweramp", "dBpoweramp", "FLAC", "Unknown", "0:00:00",
              "1.0 MB"⟩ ∧
    (⟨"Album1", "Unknown", "Unknown", "Unknown", "Unknown", "Unknown",
      "dBpoweramp", "dBpoweramp", "FLAC", "Unknown", "0:00:00",
      "1.0 MB"⟩ : Info).Ripper = "dBpoweramp" ∧
    (⟨"Album1", "Unknown", "Unknown", "Unknown", "Unknown", "Unknown",
      "dBpoweramp", "dBpoweramp", "FLAC", "Unknown", "0:00:00",
      "1.0 MB"⟩ : Info).Encode = "dBpoweramp" :=
  ⟨by decide,
   C10_ripper_encode_constant "Album1" [⟨"input/Album1/a.flac", 1048576, none⟩]
     none none (fun _ _ => .networkError) _ (by decide)⟩

/-- C8: the Taille field is the total audio byte size divided by 1048576,
rounded to two decimals, with " MB" appended; 5242880 bytes give
"5.0 MB". -/
theorem C8_taille_formula (n : String) (fs : List AudioFile)
    (dl token : Option String)
    (lookup : Option String → Option String → HttpOutcome) (info : Info)
    (h : generate_nfo n fs dl token lookup = some info) :
    info.Taille = formatSizeMB ((fs.map AudioFile.size).sum) ∧
    formatSizeMB 5242880 = "5.0 MB" := by
  rw [generate_nfo_some_eq h]
  exact ⟨rfl, by decide⟩

/-- Witness for C8 on a concrete album of one 1 MiB file. -/
theorem C8_witness :
    generate_nfo "Album1" [⟨"input/Album1/a.flac", 1048576, none⟩] none none
        (fun _ _ => .networkError)
      = some ⟨"Album1", "Unknown", "Unknown", "Unknown", "Unknown", "Unknown",
              "dBpoweramp", "dBpoweramp", "FLAC", "Unknown", "0:00:00",
              "1.0 MB"⟩ ∧
    (⟨"Album1", "Unknown", "Unknown", "Unknown", "Unknown", "Unknown",
      "dBpoweramp", "dBpoweramp", "FLAC", "Unknown", "0:00:00",
      "1.0 MB"⟩ : Info).Taille = formatSizeMB 1048576 ∧
    formatSizeMB 5242880 = "5.0 MB" :=
  ⟨by decide,
   C8_taille_formula "Album1" [⟨"input/Album1/a.flac", 1048576, none⟩]
     none none (fun _ _ => .networkError) _ (by decide)⟩

/-- C2 counterexample: an album directory with zero recognized audio files
gets no .nfo file, yet the driver still moves it to the output directory,
contradicting the claim that it stays in the input root. -/
theorem C2_counterexample :
    (process_albums none (fun _ _ => .networkError)
        [⟨"EmptyAlbum", true, []⟩]).nfosWritten = [] ∧
    (process_albums none (fun _ _ => .networkError)
        [⟨"EmptyAlbum", true, []⟩]).moved = ["EmptyAlbum"] :=
  ⟨rfl, rfl⟩

/-- C2 amended: the driver moves every directory entry of the input root,
while an .nfo is generated exactly for the directories that contain at
least one recognized audio file; an audio-less album is skipped for NFO
generation but moved all the same. -/
theorem C2_empty_album_still_moved (token : Option String)
    (lookup : Option String → Option String → HttpOutcome)
    (entries : List DirEntry) :
    (process_albums token lookup entries).moved
      = (entries.filter fun e => e.isDirectory).map DirEntry.name ∧
    (process_albums token lookup entries).nfosWritten
      = (entries.filter fun e => e.isDirectory && !e.audioFiles.isEmpty).map
          DirEntry.name := by
  induction entries with
  | nil => exact ⟨rfl, rfl⟩
  | cons e rest ih =>
    obtain ⟨ih1, ih2⟩ := ih
    cases hd : e.isDirectory with
    | false =>
      simp only [process_albums, hd, Bool.false_eq_true, if_false,
        List.filter_cons, Bool.false_and]
      exact ⟨ih1, ih2⟩
    | true =>
      cases he : e.audioFiles.isEmpty with
      | true =>
        simp only [process_albums, hd, if_true,
          generate_nfo_of_empty e.name none token lookup he,
          List.filter_cons, he, Bool.true_and, Bool.not_true,
          Bool.and_false, if_false]
        exact ⟨by simp [ih1], ih2⟩
      | false =>
        obtain ⟨i, hi⟩ := generate_nfo_of_nonempty e.name none token lookup he
        simp only [process_albums, hd, if_true, hi, List.filter_cons, he,
          Bool.true_and, Bool.not_false, Bool.and_true, if_true]
        exact ⟨by simp [ih1], by simp [ih2]⟩

/-- C4 counterexample: a .wav file whose name merely contains ".flac"
makes Qualite "FLAC", although no processed file has the .flac
extension — the code tests substring containment on the whole path, not
the extension. -/
theorem C4_counterexample :
    Option.map Info.Qualite
      (generate_nfo "Album1" [⟨"input/Album1/a.flac.wav", 10, none⟩]
        none none (fun _ _ => .networkError)) = some "FLAC" ∧
    hasFlacExtension "input/Album1/a.flac.wav" = false :=
  ⟨rfl, rfl⟩

/-- C4 amended: Qualite is "FLAC" iff the five characters ".flac" occur as
a substring of some processed file's path string (which includes the
folder name), and "WAV" otherwise; no other value is possible and the
codec is never inspected. -/
theorem C4_qualite_substring (n : String) (fs : List AudioFile)
    (dl token : Option String)
    (lookup : Option String → Option String → HttpOutcome) (info : Info)
    (h : generate_nfo n fs dl token lookup = some info) :
    (info.Qualite = "FLAC" ↔
      fs.any (fun f => strContains f.path ".flac") = true) ∧
    (info.Qualite = "FLAC" ∨ info.Qualite = "WAV") := by
  rw [generate_nfo_some_eq h]
  cases hq : fs.any (fun f => strContains f.path ".flac") with
  | true => simp [hq]
  | false => simp [hq]

/-- Witness for C4 on a concrete album containing a genuine .flac file. -/
theorem C4_witness :
    generate_nfo "Album1" [⟨"input/Album1/a.flac", 1048576, none⟩] none none
        (fun _ _ => .networkError)
      = some ⟨"Album1", "Unknown", "Unknown", "Unknown", "Unknown", "Unknown",
              "dBpoweramp", "dBpoweramp", "FLAC", "Unknown", "0:00:00",
              "1.0 MB"⟩ ∧
    (((⟨"Album1", "Unknown", "Unknown", "Unknown", "Unknown", "Unknown",
        "dBpoweramp", "dBpoweramp", "FLAC", "Unknown", "0:00:00",
        "1.0 MB"⟩ : Info).Qualite = "FLAC" ↔
      List.any [(⟨"input/Album1/a.flac", 1048576, none⟩ : AudioFile)]
        (fun f => strContains f.path ".flac") = true) ∧
     ((⟨"Album1", "Unknown", "Unknown", "Unknown", "Unknown", "Unknown",
        "dBpoweramp", "dBpoweramp", "FLAC", "Unknown", "0:00:00",
        "1.0 MB"⟩ : Info).Qualite = "FLAC" ∨
      (⟨"Album1", "Unknown", "Unknown", "Unknown", "Unknown", "Unknown",
        "dBpoweramp", "dBpoweramp", "FLAC", "Unknown", "0:00:00",
        "1.0 MB"⟩ : Info).Qualite = "WAV")) :=
  ⟨by decide,
   C4_qualite_substring "Album1" [⟨"input/Album1/a.flac", 1048576, none⟩]
     none none (fun _ _ => .networkError) _ (by decide)⟩

/-- C1 counterexample: the first file's record is extracted successfully
but lacks Genre, so the loop stores the fallback "Unknown" at once; the
second file's non-empty Genre "Pop" is never used, contradicting the
claim that a file lacking a field does not block a later file's value. -/
theorem C1_counterexample :
    Option.map Info.Genre
      (generate_nfo "Album1"
        [⟨"input/Album1/a.flac", 10,
          some ⟨none, none, none, none, none, none, none⟩⟩,
         ⟨"input/Album1/b.flac", 10,
          some ⟨none, none, some "Pop", none, none, none, none⟩⟩]
        none none (fun _ _ => .networkError)) = some "Unknown" ∧
    (some "Unknown" : Option String) ≠ some "Pop" :=
  ⟨rfl, by decide⟩

/-- C1 amended: aggregation is first-wins at the granularity of whole
files, not of fields — all five metadata fields are taken from the first
file whose MediaInfo extraction succeeds (files with failed extraction are
skipped), each field falling back to "Unknown" when that record lacks its
key; in particular with F1 Genre "Rock" before F2 Genre "Pop" the result
is "Rock". -/
theorem C1_first_extracted_file_wins :
    (∀ (pre post : List AudioFile) (f : AudioFile) (gi : TrackInfo),
      (∀ g ∈ pre, g.mediaInfo = none) → f.mediaInfo = some gi →
      (aggregate (pre ++ f :: post)).artist
          = some (gi.performer.getD "Unknown") ∧
      (aggregate (pre ++ f :: post)).album
          = some (gi.album.getD "Unknown") ∧
      (aggregate (pre ++ f :: post)).genre
          = some (gi.genre.getD "Unknown") ∧
      (aggregate (pre ++ f :: post)).source
          = some (gi.originalSourceForm.getD (gi.format.getD "Unknown")) ∧
      (aggregate (pre ++ f :: post)).year
          = some (gi.recorded_Date.getD "Unknown")) ∧
    Option.map Info.Genre
      (generate_nfo "Album1"
        [⟨"input/Album1/a.flac", 10,
          some ⟨none, none, some "Rock", none, none, none, none⟩⟩,
         ⟨"input/Album1/b.flac", 10,
          some ⟨none, none, some "Pop", none, none, none, none⟩⟩]
        none none (fun _ _ => .networkError)) = some "Rock" := by
  constructor
  · intro pre post f gi hpre hf
    unfold aggregate
    rw [List.foldl_append, foldl_stepFile_skip hpre, List.foldl_cons]
    have h1 : (stepFile initAgg f).artist
        = some (gi.performer.getD "Unknown") := by
      unfold stepFile
      rw [hf]
      rfl
    have h2 : (stepFile initAgg f).album = some (gi.album.getD "Unknown") := by
      unfold stepFile
      rw [hf]
      rfl
    have h3 : (stepFile initAgg f).genre = some (gi.genre.getD "Unknown") := by
      unfold stepFile
      rw [hf]
      rfl
    have h4 : (stepFile initAgg f).source
        = some (gi.originalSourceForm.getD (gi.format.getD "Unknown")) := by
      unfold stepFile
      rw [hf]
      rfl
    have h5 : (stepFile initAgg f).year
        = some (gi.recorded_Date.getD "Unknown") := by
      unfold stepFile
      rw [hf]
      rfl
    exact foldl_stepFile_keeps post (stepFile initAgg f) _ _ _ _ _
      h1 h2 h3 h4 h5
  · rfl

/-- Witness for C1 with a single successfully extracted file. -/
theorem C1_witness :
    (∀ g ∈ ([] : List AudioFile), g.mediaInfo = none) ∧
    ((aggregate [⟨"input/Album1/a.flac", 10,
        some ⟨some "ArtistX", none, some "Rock", none, none, none,
          none⟩⟩]).artist = some "ArtistX" ∧
     (aggregate [⟨"input/Album1/a.flac", 10,
        some ⟨some "ArtistX", none, some "Rock", none, none, none,
          none⟩⟩]).album = some "Unknown" ∧
     (aggregate [⟨"input/Album1/a.flac", 10,
        some ⟨some "ArtistX", none, some "Rock", none, none, none,
          none⟩⟩]).genre = some "Rock" ∧
     (aggregate [⟨"input/Album1/a.flac", 10,
        some ⟨some "ArtistX", none, some "Rock", none, none, none,
          none⟩⟩]).source = some "Unknown" ∧
     (aggregate [⟨"input/Album1/a.flac", 10,
        some ⟨some "ArtistX", none, some "Rock", none, none, none,
          none⟩⟩]).year = some "Unknown") :=
  ⟨by simp,
   C1_first_extracted_file_wins.1 [] []
     ⟨"input/Album1/a.flac", 10,
       some ⟨some "ArtistX", none, some "Rock", none, none, none, none⟩⟩
     ⟨some "ArtistX", none, some "Rock", none, none, none, none⟩
     (by simp) rfl⟩

/-- C3 counterexample: when the first Discogs result carries an empty uri,
search_discogs returns the empty string and the Link field of the info
mapping is empty — nothing replaces it by "Unknown". -/
theorem C3_counterexample :
    Option.map Info.Link
      (generate_nfo "Album1"
        [⟨"input/Album1/a.flac", 10,
          some ⟨some "ArtistX", some "AlbumY", none, none, none, none,
            none⟩⟩]
        none (some "tok")
        (fun _ _ => .response 200 (some ⟨[⟨some ""⟩]⟩))) = some "" ∧
    ("" : String) ≠ "Unknown" :=
  ⟨rfl, by decide⟩

/-- C3 amended: for an album with at least one audio file and a non-empty
folder name, every field of the info mapping except Link is a non-empty
string (absent or empty metadata is replaced by "Unknown"); the Link field
is the raw lookup result and can be the empty string. -/
theorem C3_all_fields_but_link_nonempty (n : String) (fs : List AudioFile)
    (dl token : Option String)
    (lookup : Option String → Option String → HttpOutcome) (info : Info)
    (hn : n ≠ "") (h : generate_nfo n fs dl token lookup = some info) :
    info.Release ≠ "" ∧ info.Artists ≠ "" ∧ info.Album ≠ "" ∧
    info.Genre ≠ "" ∧ info.Source ≠ "" ∧ info.Annee ≠ "" ∧
    info.Ripper ≠ "" ∧ info.Encode ≠ "" ∧ info.Qualite ≠ "" ∧
    info.Duree ≠ "" ∧ info.Taille ≠ "" := by
  rw [generate_nfo_some_eq h]
  exact ⟨hn, pyOr_unknown_ne_empty _, pyOr_unknown_ne_empty _,
    pyOr_unknown_ne_empty _, pyOr_unknown_ne_empty _, pyOr_unknown_ne_empty _,
    (show ("dBpoweramp" : String) ≠ "" by decide),
    (show ("dBpoweramp" : String) ≠ "" by decide),
    ite_ne_empty (show ("FLAC" : String) ≠ "" by decide)
      (show ("WAV" : String) ≠ "" by decide),
    format_duration_ne_empty _, formatSizeMB_ne_empty _⟩

/-- Witness for C3 on a concrete album. -/
theorem C3_witness :
    ("Album1" : String) ≠ "" ∧
    generate_nfo "Album1" [⟨"input/Album1/a.flac", 1048576, none⟩] none none
        (fun _ _ => .networkError)
      = some ⟨"Album1", "Unknown", "Unknown", "Unknown", "Unknown", "Unknown",
              "dBpoweramp", "dBpoweramp", "FLAC", "Unknown", "0:00:00",
              "1.0 MB"⟩ ∧
    ((⟨"Album1", "Unknown", "Unknown", "Unknown", "Unknown", "Unknown",
       "dBpoweramp", "dBpoweramp", "FLAC", "Unknown", "0:00:00",
       "1.0 MB"⟩ : Info).Release ≠ "" ∧
     (⟨"Album1", "Unknown", "Unknown", "Unknown", "Unknown", "Unknown",
       "dBpoweramp", "dBpoweramp", "FLAC", "Unknown", "0:00:00",
       "1.0 MB"⟩ : Info).Artists ≠ "" ∧
     (⟨"Album1", "Unknown", "Unknown", "Unknown", "Unknown", "Unknown",
       "dBpoweramp", "dBpoweramp", "FLAC", "Unknown", "0:00:00",
       "1.0 MB"⟩ : Info).Album ≠ "" ∧
     (⟨"Album1", "Unknown", "Unknown", "Unknown", "Unknown", "Unknown",
       "dBpoweramp", "dBpoweramp", "FLAC", "Unknown", "0:00:00",
       "1.0 MB"⟩ : Info).Genre ≠ "" ∧
     (⟨"Album1", "Unknown", "Unknown", "Unknown", "Unknown", "Unknown",
       "dBpoweramp", "dBpoweramp", "FLAC", "Unknown", "0:00:00",
       "1.0 MB"⟩ : Info).Source ≠ "" ∧
     (⟨"Album1", "Unknown", "Unknown", "Unknown", "Unknown", "Unknown",
       "dBpoweramp", "dBpoweramp", "FLAC", "Unknown", "0:00:00",
       "1.0 MB"⟩ : Info).Annee ≠ "" ∧
     (⟨"Album1", "Unknown", "Unknown", "Unknown", "Unknown", "Unknown",
       "dBpoweramp", "dBpoweramp", "FLAC", "Unknown", "0:00:00",
       "1.0 MB"⟩ : Info).Ripper ≠ "" ∧
     (⟨"Album1", "Unknown", "Unknown", "Unknown", "Unknown", "Unknown",
       "dBpoweramp", "dBpoweramp", "FLAC", "Unknown", "0:00:00",
       "1.0 MB"⟩ : Info).Encode ≠ "" ∧
     (⟨"Album1", "Unknown", "Unknown", "Unknown", "Unknown", "Unknown",
       "dBpoweramp", "dBpoweramp", "FLAC", "Unknown", "0:00:00",
       "1.0 MB"⟩ : Info).Qualite ≠ "" ∧
     (⟨"Album1", "Unknown", "Unknown", "Unknown", "Unknown", "Unknown",
       "dBpoweramp", "dBpoweramp", "FLAC", "Unknown", "0:00:00",
       "1.0 MB"⟩ : Info).Duree ≠ "" ∧
     (⟨"Album1", "Unknown", "Unknown", "Unknown", "Unknown", "Unknown",
       "dBpoweramp", "dBpoweramp", "FLAC", "Unknown", "0:00:00",
       "1.0 MB"⟩ : Info).Taille ≠ "") :=
  ⟨by decide, by decide,
   C3_all_fields_but_link_nonempty "Album1"
     [⟨"input/Album1/a.flac", 1048576, none⟩] none none
     (fun _ _ => .networkError) _ (by decide) (by decide)⟩

/-- C5 counterexample: requests.raise_for_status only raises for statuses
in [400, 600), so a non-2xx status such as 300 whose body parses and
contains a result does NOT yield "Unknown" — the first result's uri is
returned. -/
theorem C5_counterexample :
    (search_discogs (some "tok")
        (.response 300 (some ⟨[⟨some "/r/1"⟩]⟩))).1
      = "https://www.discogs.com/r/1" ∧
    ("https://www.discogs.com/r/1" : String) ≠ "Unknown" :=
  ⟨rfl, by decide⟩

/-- C5 amended: search_discogs never raises (it is a total function here
because the bare except absorbs every exception); a network error, an
HTTP status in [400, 600) — the exact range raise_for_status raises
for — an unparsable body, or an empty or missing results list all yield
exactly "Unknown".  A 3xx status with a parsable result list is treated
as success instead. -/
theorem C5_error_paths_give_unknown (token : Option String) :
    (search_discogs token .networkError).1 = "Unknown" ∧
    (∀ (status : Nat) (body : Option SearchBody), 400 ≤ status →
      status < 600 →
      (search_discogs token (.response status body)).1 = "Unknown") ∧
    (∀ status : Nat,
      (search_discogs token (.response status none)).1 = "Unknown") ∧
    (∀ status : Nat,
      (search_discogs token (.response status (some ⟨[]⟩))).1
        = "Unknown") := by
  cases token with
  | none => exact ⟨rfl, fun _ _ _ _ => rfl, fun _ => rfl, fun _ => rfl⟩
  | some t =>
    by_cases ht : t = ""
    · subst ht
      exact ⟨rfl, fun _ _ _ _ => rfl, fun _ => rfl, fun _ => rfl⟩
    · refine ⟨?_, ?_, ?_, ?_⟩
      · have hr : search_discogs (some t) .networkError
            = if t = "" then ("Unknown", 0) else ("Unknown", 1) := rfl
        rw [hr, if_neg ht]
      · intro status body hs1 hs2
        have hr : search_discogs (some t) (.response status body)
            = if t = "" then ("Unknown", 0)
              else if 400 ≤ status ∧ status < 600 then ("Unknown", 1)
              else
                match body with
                | none => ("Unknown", 1)
                | some data =>
                  match data.results with
                  | [] => ("Unknown", 1)
                  | r :: _ =>
                    let uri := r.uri.getD "Unknown"
                    if pyStartsWith uri "/" then
                      ("https://www.discogs.com" ++ uri, 1)
                    else (uri, 1) := rfl
        rw [hr, if_neg ht, if_pos ⟨hs1, hs2⟩]
      · intro status
        have hr : search_discogs (some t) (.response status none)
            = if t = "" then ("Unknown", 0)
              else if 400 ≤ status ∧ status < 600 then ("Unknown", 1)
              else ("Unknown", 1) := rfl
        rw [hr, if_neg ht]
        split
        · rfl
        · rfl
      · intro status
        have hr : search_discogs (some t) (.response status (some ⟨[]⟩))
            = if t = "" then ("Unknown", 0)
              else if 400 ≤ status ∧ status < 600 then ("Unknown", 1)
              else ("Unknown", 1) := rfl
        rw [hr, if_neg ht]
        split
        · rfl
        · rfl

/-- Witness for C5 at a concrete 404 response. -/
theorem C5_witness :
    (400 ≤ 404 ∧ 404 < 600) ∧
    (search_discogs (some "tok")
        (.response 404 (some ⟨[⟨some "/r/1"⟩]⟩))).1 = "Unknown" :=
  ⟨by decide,
   (C5_error_paths_give_unknown (some "tok")).2.1 404
     (some ⟨[⟨some "/r/1"⟩]⟩) (by decide) (by decide)⟩

end MusicNFO
